import Mathlib

/-
Verification development for the Donkee bot repository.

The subject is the ingestion core of src/src/index.js (first revision):
`storeTweet` (lines 123-143), `searchAndStoreTweets` (lines 148-189) and
`setupTweetCollection` (lines 69-82), together with `connectDB` from the
db.js module (src/unnamed/part_000).

The embedding is a trace semantics: an `Env` records what the external
collaborators (the read API and the MongoDB driver) answer, and each
embedded function returns its result together with the list of observable
external calls (`Event`) it makes, threading the `tweets` collection state
explicitly.
-/

namespace DonkeeBot

/-- Engagement counters of a tweet (the JS object `tweet.public_metrics`);
either counter may be absent upstream. -/
structure PublicMetrics where
  like_count : Option Nat
  retweet_count : Option Nat
deriving Repr, DecidableEq

/-- One entry of the `tweet.entities.hashtags` array. -/
structure Hashtag where
  tag : String
deriving Repr, DecidableEq

/-- The `entities` object of a tweet; the hashtag array may be absent. -/
structure Entities where
  hashtags : Option (List Hashtag)
deriving Repr, DecidableEq

/-- A raw tweet as returned by the external read API. The optional fields
model the fields the code guards with optional chaining. -/
structure Tweet where
  id : String
  text : String
  created_at : String
  public_metrics : Option PublicMetrics
  entities : Option Entities
deriving Repr, DecidableEq

/-- A JavaScript Date value built by `new Date(s)` from a timestamp string;
identified by the string it was built from. -/
structure Date where
  ofString : String
deriving Repr, DecidableEq

/-- The document shape inserted into the `tweets` collection by `storeTweet`
(index.js lines 127-134). -/
structure TweetData where
  tweet_id : String
  text : String
  likes : Nat
  retweets : Nat
  timestamp : Date
  hashtags : List String
deriving Repr, DecidableEq

/-- Normalization performed by `storeTweet` (index.js lines 127-134):
`likes` is `tweet.public_metrics?.like_count || 0`, `retweets` is
`tweet.public_metrics?.retweet_count || 0`, `timestamp` is
`new Date(tweet.created_at)` and `hashtags` is
`tweet.entities?.hashtags?.map(h => h.tag) || []`. -/
def mkTweetData (tweet : Tweet) : TweetData :=
  ⟨tweet.id,
   tweet.text,
   (tweet.public_metrics.bind PublicMetrics.like_count).getD 0,
   (tweet.public_metrics.bind PublicMetrics.retweet_count).getD 0,
   ⟨tweet.created_at⟩,
   ((tweet.entities.bind Entities.hashtags).map (List.map Hashtag.tag)).getD []⟩

/-- Errors surfaced by the external capabilities: a rate-limit signal
carrying a reset time, or any other error. -/
inductive JsError where
  | rateLimit (resetTime : Int)
  | other (msg : String)
deriving Repr, DecidableEq

/-- Result of one call to the external read capability. `ok none` models a
response whose `data` field is absent or not an array (the code tests
`result.data && Array.isArray(result.data)`); `ok (some ts)` models a
present array, possibly empty. -/
inductive FetchResult where
  | ok (data : Option (List Tweet))
  | err (e : JsError)
deriving Repr, DecidableEq

/-- A MongoDB index, as created by `collection.createIndex(keys, options)`:
its key document and whether the `unique` option was set. -/
structure IndexSpec where
  keys : List (String × Int)
  unique : Bool
deriving Repr, DecidableEq

/-- Embeds `setupTweetCollection` (index.js lines 69-82): the three
`createIndex` calls on the `tweets` collection, in order. None of them
passes the `unique` option (the only option passed is `background: true`),
so every index is non-unique. -/
def setupTweetCollection : List IndexSpec :=
  [⟨[("timestamp", 1)], false⟩,
   ⟨[("hashtags", 1)], false⟩,
   ⟨[("likes", -1), ("retweets", -1)], false⟩]

/-- State of the `tweets` collection: stored documents in insertion order. -/
abbrev DBState := List TweetData

/-- Equality of two documents on one indexed field name. -/
def fieldEqOn (field : String) (a b : TweetData) : Bool :=
  if field = "tweet_id" then a.tweet_id == b.tweet_id
  else if field = "text" then a.text == b.text
  else if field = "likes" then a.likes == b.likes
  else if field = "retweets" then a.retweets == b.retweets
  else if field = "timestamp" then a.timestamp == b.timestamp
  else if field = "hashtags" then a.hashtags == b.hashtags
  else true

/-- Two documents collide on an index when they agree on every key field of
that index. -/
def keysMatch (idx : IndexSpec) (a b : TweetData) : Bool :=
  idx.keys.all (fun kv => fieldEqOn kv.1 a b)

/-- MongoDB duplicate-key model: `insertOne` raises a duplicate-key error
exactly when some **unique** index of the collection already has a stored
document agreeing with the new one on that index key. The implicit `_id`
index is omitted because `_id` is freshly generated for every insert and
never collides. -/
def hasUniqueKeyConflict (idxs : List IndexSpec) (docs : List TweetData)
    (d : TweetData) : Bool :=
  idxs.any (fun idx => idx.unique && docs.any (fun d0 => keysMatch idx d0 d))

/-- Observable external calls made during a run: the search read, a list
read, an attempted `insertOne`, and the `console.error` of a caught
per-source failure. -/
inductive Event where
  | searchCall (query : String) (maxResults : Nat)
  | listCall (listId : String) (maxResults : Nat)
  | insertCall (doc : TweetData)
  | logFailure (sourceId : String) (e : JsError)
deriving Repr, DecidableEq

/-- Behavior of the external collaborators during one run: what the search
call answers, what each list call answers, and whether a given insert is
failed by the storage layer (beyond the duplicate-key model). -/
structure Env where
  search : String → Nat → FetchResult
  listTweets : String → Nat → FetchResult
  insertErr : TweetData → Option JsError

/-- Embeds `storeTweet` (index.js lines 123-143). If the module-level `db`
handle is unset the promise is rejected with `MongoDB not connected` and no
call is made; otherwise the normalized document is passed to `insertOne`,
and any storage error (the schema validation of `addSchemaValidation` is
statically satisfied by the document shape) is rethrown (line 141). -/
def storeTweet (env : Env) (db : Option DBState) (tweet : Tweet) :
    Except JsError DBState × List Event :=
  match db with
  | none => (Except.error (JsError.other "MongoDB not connected"), [])
  | some docs =>
    match env.insertErr (mkTweetData tweet) with
    | some e => (Except.error e, [Event.insertCall (mkTweetData tweet)])
    | none =>
      if hasUniqueKeyConflict setupTweetCollection docs (mkTweetData tweet) then
        (Except.error (JsError.other "duplicate key"),
          [Event.insertCall (mkTweetData tweet)])
      else
        (Except.ok (docs ++ [mkTweetData tweet]),
          [Event.insertCall (mkTweetData tweet)])

/-- Embeds the per-batch loop `for (const tweet of ...) await storeTweet(tweet)`
(index.js lines 154-156 and 173-175): writes are sequential and the loop is
left at the first rejected write. Returns the final collection state, the
error that escaped the loop if any, and the events. -/
def storeBatch (env : Env) (db : Option DBState) :
    List Tweet → Option DBState × Option JsError × List Event
  | [] => (db, none, [])
  | t :: ts =>
    match storeTweet env db t with
    | (Except.ok db1, ev1) =>
      ((storeBatch env (some db1) ts).1, (storeBatch env (some db1) ts).2.1,
        ev1 ++ (storeBatch env (some db1) ts).2.2)
    | (Except.error e, ev1) => (db, some e, ev1)

/-- The free-text query of the run (index.js line 150). -/
def theQuery : String :=
  "#sol OR #solana OR #memecoins OR #memes OR #crypto OR #100x lang:en -is:retweet"

/-- The configured list identifiers, in configured order
(index.js lines 163-166). -/
def listIds : List String :=
  ["1587987762908651520", "1726621096902807989", "1777037601578287430",
   "1747955009617006656", "1818599454951588008"]

/-- Embeds one iteration of the list loop (index.js lines 168-184): one
`listTweets` call with `max_results: 100`, then the per-batch store loop;
the surrounding try/catch logs any error thrown by the fetch or by a write
and falls through to the next list. There is no retry and no sleep. -/
def processList (env : Env) (db : Option DBState) (listId : String) :
    Option DBState × List Event :=
  match env.listTweets listId 100 with
  | FetchResult.err e =>
    (db, [Event.listCall listId 100, Event.logFailure listId e])
  | FetchResult.ok none => (db, [Event.listCall listId 100])
  | FetchResult.ok (some tweets) =>
    match (storeBatch env db tweets).2.1 with
    | none =>
      ((storeBatch env db tweets).1,
        Event.listCall listId 100 :: (storeBatch env db tweets).2.2)
    | some e =>
      ((storeBatch env db tweets).1,
        Event.listCall listId 100 ::
          ((storeBatch env db tweets).2.2 ++ [Event.logFailure listId e]))

/-- Runs the list loop over a sequence of list identifiers, in order. -/
def processLists (env : Env) (db : Option DBState) :
    List String → Option DBState × List Event
  | [] => (db, [])
  | l :: ls =>
    ((processLists env (processList env db l).1 ls).1,
      (processList env db l).2 ++ (processLists env (processList env db l).1 ls).2)

/-- Embeds the query part of `searchAndStoreTweets` (index.js lines
150-160): one `search` call with `max_results: 100` and the store loop over
its items. An error thrown here is not caught locally; the first component
is the error that escapes to the outer catch, if any. -/
def queryPhase (env : Env) (db : Option DBState) :
    Option JsError × Option DBState × List Event :=
  match env.search theQuery 100 with
  | FetchResult.err e => (some e, db, [Event.searchCall theQuery 100])
  | FetchResult.ok none => (none, db, [Event.searchCall theQuery 100])
  | FetchResult.ok (some tweets) =>
    ((storeBatch env db tweets).2.1, (storeBatch env db tweets).1,
      Event.searchCall theQuery 100 :: (storeBatch env db tweets).2.2)

/-- Embeds `searchAndStoreTweets` (index.js lines 148-189): the query phase
first; if it throws, the outer catch logs and **rethrows** (line 187) and
the list loop is never reached; otherwise the list loop runs over the five
configured lists, its per-list catch absorbing every list failure. Returns
the rethrown error if any, the final collection state, and the events. -/
def searchAndStoreTweets (env : Env) (db : Option DBState) :
    Option JsError × Option DBState × List Event :=
  match (queryPhase env db).1 with
  | some e => (some e, (queryPhase env db).2.1, (queryPhase env db).2.2)
  | none =>
    (none, (processLists env (queryPhase env db).2.1 listIds).1,
      (queryPhase env db).2.2 ++
        (processLists env (queryPhase env db).2.1 listIds).2)

/-- The error with which a run of `searchAndStoreTweets` rejects, if any. -/
def runError (env : Env) (db : Option DBState) : Option JsError :=
  (searchAndStoreTweets env db).1

/-- The events of a run of `searchAndStoreTweets`. -/
def runTrace (env : Env) (db : Option DBState) : List Event :=
  (searchAndStoreTweets env db).2.2

/-- The FetchOutcome vocabulary of the spec (section 3). -/
inductive FetchOutcome where
  | items (tweets : List Tweet)
  | empty
  | rateLimited (resetTime : Int)
  | failed (e : JsError)
deriving Repr, DecidableEq

/-- Spec-side classification of one read-call result, written from the spec
wording (sections 3 and 4.2): a successful call that yields zero items is
`Empty`, a successful call with items is `Items`, a rate-limit error is
`RateLimited` and any other error is `Failed`. -/
def fetchOutcomeOfResult : FetchResult → FetchOutcome
  | FetchResult.ok none => FetchOutcome.empty
  | FetchResult.ok (some []) => FetchOutcome.empty
  | FetchResult.ok (some (t :: ts)) => FetchOutcome.items (t :: ts)
  | FetchResult.err (JsError.rateLimit r) => FetchOutcome.rateLimited r
  | FetchResult.err (JsError.other m) => FetchOutcome.failed (JsError.other m)

/-- State of the module-level MongoClient of db.js: how many times
`client.connect()` has been executed. -/
structure MongoClientState where
  connectCount : Nat
deriving Repr, DecidableEq

/-- A database handle; `client.db` is deterministic so a handle is
identified by the database name it was opened with. -/
abbrev DbHandle := String

/-- The handle returned by `client.db` for the `donkeeBot` database. -/
def donkeeBotHandle : DbHandle := "donkeeBot"

/-- Module state of db.js: the memoized module-level `db` variable and the
client. -/
structure ConnState where
  db : Option DbHandle
  client : MongoClientState
deriving Repr, DecidableEq

/-- Initial module state of db.js: `db` unset, no connection made. -/
def connState0 : ConnState := ⟨none, ⟨0⟩⟩

/-- Embeds `connectDB` (src/unnamed/part_000 lines 9-16): when the memoized
`db` is unset, connect once and memoize the handle; otherwise return the
memoized handle without connecting. -/
def connectDB (s : ConnState) : DbHandle × ConnState :=
  match s.db with
  | some h => (h, s)
  | none =>
    (donkeeBotHandle, ⟨some donkeeBotHandle, ⟨s.client.connectCount + 1⟩⟩)

/-- Runs `connectDB` the given number of times sequentially, collecting the
returned handles. -/
def connectDBIter : Nat → ConnState → List DbHandle × ConnState
  | 0, s => ([], s)
  | Nat.succ n, s =>
    ((connectDB s).1 :: (connectDBIter n (connectDB s).2).1,
      (connectDBIter n (connectDB s).2).2)

/-- Number of occurrences of an event in a trace. -/
def countEv (e : Event) : List Event → Nat
  | [] => 0
  | x :: xs => (if x = e then 1 else 0) + countEv e xs

/-- Number of occurrences of a string in a list of strings. -/
def countStr (s : String) : List String → Nat
  | [] => 0
  | x :: xs => (if x = s then 1 else 0) + countStr s xs

/-- Read calls are the search and list calls of a trace. -/
def isReadCall : Event → Bool
  | Event.searchCall _ _ => true
  | Event.listCall _ _ => true
  | _ => false

/-- A tweet with every optional field absent. -/
def tweetBare : Tweet := ⟨"tw1", "gm", "2024-01-01T00:00:00Z", none, none⟩

/-- A tweet whose write will be failed by `envC4`. -/
def tweetA : Tweet := ⟨"A", "alpha", "2024-01-01T00:00:00Z", none, none⟩

/-- A tweet following `tweetA` in the same batch. -/
def tweetB : Tweet := ⟨"B", "beta", "2024-01-02T00:00:00Z", none, none⟩

/-- Environment in which every read succeeds with no data and every write
succeeds. -/
def envQuiet : Env :=
  ⟨fun _ _ => FetchResult.ok none, fun _ _ => FetchResult.ok none,
   fun _ => none⟩

/-- Environment in which the search succeeds with no data and every list
call fails with a rate-limit signal carrying a reset time. -/
def envRateLimited : Env :=
  ⟨fun _ _ => FetchResult.ok none,
   fun _ _ => FetchResult.err (JsError.rateLimit 2000),
   fun _ => none⟩

/-- Environment in which the search call itself fails with a non-rate-limit
error. -/
def envQueryFails : Env :=
  ⟨fun _ _ => FetchResult.err (JsError.other "boom"),
   fun _ _ => FetchResult.ok none,
   fun _ => none⟩

/-- Environment in which the search succeeds with no data and every list
call fails with a non-rate-limit error. -/
def envListsFail : Env :=
  ⟨fun _ _ => FetchResult.ok none,
   fun _ _ => FetchResult.err (JsError.other "badness"),
   fun _ => none⟩

/-- Environment in which the first configured list returns a two-tweet batch
and the storage layer fails the write of the first tweet of that batch. -/
def envC4 : Env :=
  ⟨fun _ _ => FetchResult.ok none,
   fun lid _ =>
     if lid = "1587987762908651520" then FetchResult.ok (some [tweetA, tweetB])
     else FetchResult.ok none,
   fun d => if d.tweet_id = "A" then some (JsError.other "write failed") else none⟩

/-- Environment in which every read succeeds with a present but empty data
array and every write succeeds. -/
def envEmptyBatches : Env :=
  ⟨fun _ _ => FetchResult.ok (some []), fun _ _ => FetchResult.ok (some []),
   fun _ => none⟩

theorem countEv_append (e : Event) (xs ys : List Event) :
    countEv e (xs ++ ys) = countEv e xs + countEv e ys := by
  induction xs with
  | nil => simp [countEv]
  | cons x xs ih => simp [countEv, ih, Nat.add_assoc]

theorem countEv_eq_zero_of_not_mem (e : Event) (xs : List Event) (h : e ∉ xs) :
    countEv e xs = 0 := by
  induction xs with
  | nil => rfl
  | cons x xs ih =>
    rw [List.mem_cons, not_or] at h
    have hx : ¬(x = e) := fun hq => h.1 hq.symm
    simp [countEv, hx, ih h.2]

theorem storeTweet_events (env : Env) (db : Option DBState) (t : Tweet) :
    (storeTweet env db t).2 = [] ∨
      (storeTweet env db t).2 = [Event.insertCall (mkTweetData t)] := by
  cases db with
  | none => exact Or.inl rfl
  | some docs =>
    cases h : env.insertErr (mkTweetData t) with
    | some e => simp [storeTweet, h]
    | none =>
      by_cases hc : hasUniqueKeyConflict setupTweetCollection docs (mkTweetData t) <;>
        simp [storeTweet, h, hc]

theorem mem_storeTweet_events_insert (env : Env) (db : Option DBState) (t : Tweet)
    (ev : Event) (h : ev ∈ (storeTweet env db t).2) :
    ∃ d, ev = Event.insertCall d := by
  rcases storeTweet_events env db t with he | he <;> rw [he] at h
  · cases h
  · exact ⟨mkTweetData t, List.mem_singleton.mp h⟩

theorem storeBatch_events_insert (env : Env) :
    ∀ (ts : List Tweet) (db : Option DBState) (ev : Event),
      ev ∈ (storeBatch env db ts).2.2 → ∃ d, ev = Event.insertCall d := by
  intro ts
  induction ts with
  | nil =>
    intro db ev h
    simp [storeBatch] at h
  | cons t ts ih =>
    intro db ev h
    simp only [storeBatch] at h
    split at h
    · rename_i db1 ev1 heq
      rcases List.mem_append.mp h with h1 | h1
      · exact mem_storeTweet_events_insert env db t ev (by rw [heq]; exact h1)
      · exact ih (some db1) ev h1
    · rename_i e ev1 heq
      exact mem_storeTweet_events_insert env db t ev (by rw [heq]; exact h)

theorem storeBatch_countEv_listCall (env : Env) (ts : List Tweet)
    (db : Option DBState) (l : String) :
    countEv (Event.listCall l 100) (storeBatch env db ts).2.2 = 0 := by
  apply countEv_eq_zero_of_not_mem
  intro hmem
  rcases storeBatch_events_insert env ts db _ hmem with ⟨d, hd⟩
  exact Event.noConfusion hd

theorem processList_countEv (env : Env) (db : Option DBState) (lA l : String) :
    countEv (Event.listCall l 100) (processList env db lA).2 =
      if lA = l then 1 else 0 := by
  by_cases hll : lA = l
  · subst hll
    cases h : env.listTweets lA 100 with
    | err e => simp [processList, h, countEv]
    | ok data =>
      cases data with
      | none => simp [processList, h, countEv]
      | some tweets =>
        cases hb : (storeBatch env db tweets).2.1 with
        | none =>
          simp [processList, h, hb, countEv, storeBatch_countEv_listCall]
        | some e =>
          simp [processList, h, hb, countEv, countEv_append,
            storeBatch_countEv_listCall]
  · have hne : ¬(Event.listCall lA 100 = Event.listCall l 100) := by
      intro hq
      injection hq with h1 h2
      exact hll h1
    cases h : env.listTweets lA 100 with
    | err e => simp [processList, h, countEv, hne, hll]
    | ok data =>
      cases data with
      | none => simp [processList, h, countEv, hne, hll]
      | some tweets =>
        cases hb : (storeBatch env db tweets).2.1 with
        | none =>
          simp [processList, h, hb, countEv, hne, hll,
            storeBatch_countEv_listCall]
        | some e =>
          simp [processList, h, hb, countEv, countEv_append, hne, hll,
            storeBatch_countEv_listCall]

theorem processLists_cons (env : Env) (db : Option DBState) (l : String)
    (ls : List String) :
    processLists env db (l :: ls) =
      ((processLists env (processList env db l).1 ls).1,
        (processList env db l).2 ++
          (processLists env (processList env db l).1 ls).2) := rfl

theorem processLists_countEv (env : Env) (l : String) :
    ∀ (ls : List String) (db : Option DBState),
      countEv (Event.listCall l 100) (processLists env db ls).2 = countStr l ls := by
  intro ls
  induction ls with
  | nil => intro db; simp [processLists, countEv, countStr]
  | cons lA ls ih =>
    intro db
    rw [processLists_cons]
    simp [countEv_append, processList_countEv, ih, countStr]

theorem countStr_listIds (l : String) (hl : l ∈ listIds) :
    countStr l listIds = 1 := by
  simp [listIds] at hl
  rcases hl with rfl | rfl | rfl | rfl | rfl <;> decide

theorem queryPhase_countEv_listCall (env : Env) (db : Option DBState)
    (l : String) :
    countEv (Event.listCall l 100) (queryPhase env db).2.2 = 0 := by
  cases h : env.search theQuery 100 with
  | err e => simp [queryPhase, h, countEv]
  | ok data =>
    cases data with
    | none => simp [queryPhase, h, countEv]
    | some tweets =>
      simp [queryPhase, h, countEv, storeBatch_countEv_listCall]

theorem run_queryPhase_ok (env : Env) (db : Option DBState)
    (h : (queryPhase env db).1 = none) :
    searchAndStoreTweets env db =
      (none, (processLists env (queryPhase env db).2.1 listIds).1,
        (queryPhase env db).2.2 ++
          (processLists env (queryPhase env db).2.1 listIds).2) := by
  simp [searchAndStoreTweets, h]

theorem run_queryPhase_err (env : Env) (db : Option DBState) (e : JsError)
    (h : (queryPhase env db).1 = some e) :
    searchAndStoreTweets env db =
      (some e, (queryPhase env db).2.1, (queryPhase env db).2.2) := by
  simp [searchAndStoreTweets, h]

theorem logFailure_mem_processList (env : Env) (db : Option DBState)
    (l : String) (e : JsError)
    (h : env.listTweets l 100 = FetchResult.err e) :
    Event.logFailure l e ∈ (processList env db l).2 := by
  simp [processList, h]

theorem logFailure_mem_processLists (env : Env) (l : String) (e : JsError)
    (h : env.listTweets l 100 = FetchResult.err e) :
    ∀ (ls : List String) (db : Option DBState), l ∈ ls →
      Event.logFailure l e ∈ (processLists env db ls).2 := by
  intro ls
  induction ls with
  | nil => intro db hm; cases hm
  | cons lA ls ih =>
    intro db hm
    rw [processLists_cons]
    rcases List.mem_cons.mp hm with rfl | hm2
    · exact List.mem_append.mpr (Or.inl (logFailure_mem_processList env db l e h))
    · exact List.mem_append.mpr (Or.inr (ih (processList env db lA).1 hm2))

theorem filter_eq_nil_of_insertOnly (xs : List Event)
    (h : ∀ ev ∈ xs, ∃ d, ev = Event.insertCall d) :
    List.filter isReadCall xs = [] := by
  induction xs with
  | nil => rfl
  | cons x xs ih =>
    rcases h x (List.mem_cons_self x xs) with ⟨d, rfl⟩
    simp only [List.filter_cons, isReadCall]
    simp only [Bool.false_eq_true, if_false]
    exact ih (fun ev hev => h ev (List.mem_cons_of_mem _ hev))

theorem storeBatch_filter_readCalls (env : Env) (ts : List Tweet)
    (db : Option DBState) :
    List.filter isReadCall (storeBatch env db ts).2.2 = [] :=
  filter_eq_nil_of_insertOnly _ (storeBatch_events_insert env ts db)

theorem processList_readCalls (env : Env) (db : Option DBState) (l : String) :
    List.filter isReadCall (processList env db l).2 = [Event.listCall l 100] := by
  cases h : env.listTweets l 100 with
  | err e => simp [processList, h, isReadCall]
  | ok data =>
    cases data with
    | none => simp [processList, h, isReadCall]
    | some tweets =>
      cases hb : (storeBatch env db tweets).2.1 with
      | none =>
        simp [processList, h, hb, isReadCall, storeBatch_filter_readCalls]
      | some e =>
        simp [processList, h, hb, isReadCall, List.filter_append,
          storeBatch_filter_readCalls]

theorem processLists_readCalls (env : Env) :
    ∀ (ls : List String) (db : Option DBState),
      List.filter isReadCall (processLists env db ls).2 =
        ls.map (fun x => Event.listCall x 100) := by
  intro ls
  induction ls with
  | nil => intro db; simp [processLists]
  | cons l ls ih =>
    intro db
    rw [processLists_cons]
    simp [List.filter_append, processList_readCalls, ih]

theorem queryPhase_readCalls (env : Env) (db : Option DBState) :
    List.filter isReadCall (queryPhase env db).2.2 =
      [Event.searchCall theQuery 100] := by
  cases h : env.search theQuery 100 with
  | err e => simp [queryPhase, h, isReadCall]
  | ok data =>
    cases data with
    | none => simp [queryPhase, h, isReadCall]
    | some tweets =>
      simp [queryPhase, h, isReadCall, storeBatch_filter_readCalls]

theorem connectDBIter_connected (m : Nat) :
    connectDBIter m ⟨some donkeeBotHandle, ⟨1⟩⟩ =
      (List.replicate m donkeeBotHandle, ⟨some donkeeBotHandle, ⟨1⟩⟩) := by
  induction m with
  | zero => rfl
  | succ m ih => simp [connectDBIter, connectDB, ih, List.replicate_succ]

/-- C1 (amended): for a source whose fetch fails with a rate-limit signal,
the code makes exactly one read attempt with no sleep and no retry; for a
list source the error is caught and logged and the run returns without
raising, while for the query source the single failed attempt is rethrown
to the caller. -/
theorem c1_single_attempt (env : Env) (db : Option DBState) (l : String)
    (r : Int) (hl : l ∈ listIds) :
    ((queryPhase env db).1 = none →
      env.listTweets l 100 = FetchResult.err (JsError.rateLimit r) →
        countEv (Event.listCall l 100) (runTrace env db) = 1 ∧
        Event.logFailure l (JsError.rateLimit r) ∈ runTrace env db ∧
        runError env db = none) ∧
    (env.search theQuery 100 = FetchResult.err (JsError.rateLimit r) →
      runTrace env db = [Event.searchCall theQuery 100] ∧
      runError env db = some (JsError.rateLimit r)) := by
  constructor
  · intro hq he
    have hrun := run_queryPhase_ok env db hq
    refine ⟨?_, ?_, ?_⟩
    · simp only [runTrace, hrun, countEv_append, queryPhase_countEv_listCall,
        processLists_countEv]
      simp [countStr_listIds l hl]
    · simp only [runTrace, hrun]
      exact List.mem_append.mpr
        (Or.inr (logFailure_mem_processLists env l _ he listIds _ hl))
    · simp [runError, hrun]
  · intro hs
    have hq : queryPhase env db =
        (some (JsError.rateLimit r), db, [Event.searchCall theQuery 100]) := by
      simp [queryPhase, hs]
    have hrun := run_queryPhase_err env db (JsError.rateLimit r) (by rw [hq])
    constructor
    · rw [runTrace, hrun, hq]
    · rw [runError, hrun]

/-- C1 witness: in an environment whose list calls always return a
rate-limit error with reset time 2000, the first configured list gets
exactly one attempt, its failure is logged, and the run does not raise. -/
theorem c1_single_attempt_witness :
    countEv (Event.listCall "1587987762908651520" 100)
        (runTrace envRateLimited (some [])) = 1 ∧
    Event.logFailure "1587987762908651520" (JsError.rateLimit 2000) ∈
      runTrace envRateLimited (some []) ∧
    runError envRateLimited (some []) = none :=
  (c1_single_attempt envRateLimited (some []) "1587987762908651520" 2000
    (by decide)).1 rfl rfl

/-- C1 counterexample: with every list call rate-limited on every attempt,
the run issues exactly one attempt for the first list, not the five
attempts the claim states. -/
theorem c1_counterexample :
    countEv (Event.listCall "1587987762908651520" 100)
        (runTrace envRateLimited (some [])) = 1 ∧
    ¬(countEv (Event.listCall "1587987762908651520" 100)
        (runTrace envRateLimited (some [])) = 5) := by
  decide

/-- C2 (amended): each configured list source is attempted exactly once
whenever the query phase completes without throwing, whatever failures the
list fetches or their writes produce; when the query phase throws, no list
source is attempted at all, and the run rejects with exactly the query
phase error. -/
theorem c2_failure_isolation (env : Env) (db : Option DBState) (l : String)
    (hl : l ∈ listIds) :
    countEv (Event.listCall l 100) (runTrace env db) =
      (if (queryPhase env db).1 = none then 1 else 0) ∧
    runError env db = (queryPhase env db).1 := by
  cases hq : (queryPhase env db).1 with
  | none =>
    have hrun := run_queryPhase_ok env db hq
    constructor
    · simp only [runTrace, hrun, countEv_append, queryPhase_countEv_listCall,
        processLists_countEv, hq]
      simp [countStr_listIds l hl]
    · simp [runError, hrun, hq]
  | some e =>
    have hrun := run_queryPhase_err env db e hq
    constructor
    · simp [runTrace, hrun, queryPhase_countEv_listCall, hq]
    · simp [runError, hrun, hq]

/-- C2 witness: with every list call failing, the second configured list is
still attempted exactly once and the run does not raise. -/
theorem c2_failure_isolation_witness :
    countEv (Event.listCall "1726621096902807989" 100)
        (runTrace envListsFail (some [])) =
      (if (queryPhase envListsFail (some [])).1 = none then 1 else 0) ∧
    runError envListsFail (some []) = (queryPhase envListsFail (some [])).1 :=
  c2_failure_isolation envListsFail (some []) "1726621096902807989" (by decide)

/-- C2 counterexample: when the fetch of the first source (the query)
fails, the run rethrows the error and the trace shows that none of the
remaining five list sources was attempted. -/
theorem c2_counterexample :
    runError envQueryFails (some []) = some (JsError.other "boom") ∧
    runTrace envQueryFails (some []) = [Event.searchCall theQuery 100] := by
  decide

/-- C3 (amended): the `tweets` collection has no unique index, so an insert
of an already-stored externalId never reports a duplicate-key condition:
the second submission returns success and appends a second record with the
same externalId; and any storage error is rethrown rather than treated as a
successful no-op. -/
theorem c3_insert_semantics (env : Env) (docs : DBState) (t : Tweet) :
    hasUniqueKeyConflict setupTweetCollection docs (mkTweetData t) = false ∧
    (env.insertErr (mkTweetData t) = none →
      storeTweet env (some docs) t =
        (Except.ok (docs ++ [mkTweetData t]),
          [Event.insertCall (mkTweetData t)])) ∧
    (∀ e, env.insertErr (mkTweetData t) = some e →
      storeTweet env (some docs) t =
        (Except.error e, [Event.insertCall (mkTweetData t)])) := by
  have hconf : hasUniqueKeyConflict setupTweetCollection docs (mkTweetData t)
      = false := by
    simp [hasUniqueKeyConflict, setupTweetCollection]
  refine ⟨hconf, ?_, ?_⟩
  · intro h
    simp [storeTweet, h, hconf]
  · intro e h
    simp [storeTweet, h]

/-- C3 witness: re-submitting a tweet already stored succeeds and appends a
second copy of its record. -/
theorem c3_insert_semantics_witness :
    storeTweet envQuiet (some [mkTweetData tweetBare]) tweetBare =
      (Except.ok [mkTweetData tweetBare, mkTweetData tweetBare],
        [Event.insertCall (mkTweetData tweetBare)]) := by
  have h := (c3_insert_semantics envQuiet [mkTweetData tweetBare] tweetBare).2.1 rfl
  simpa using h

/-- C3 counterexample: the second submission of the same tweet returns
success, and the resulting collection holds two records with that
externalId, contradicting the claimed no-op. -/
theorem c3_counterexample :
    (storeTweet envQuiet (some [mkTweetData tweetBare]) tweetBare).1 =
      Except.ok [mkTweetData tweetBare, mkTweetData tweetBare] ∧
    (List.filter (fun d => d.tweet_id == "tw1")
        [mkTweetData tweetBare, mkTweetData tweetBare]).length = 2 :=
  ⟨rfl, rfl⟩

/-- C4 (amended): a storage failure on one item makes the per-batch loop
reject at that item, so none of the remaining items of the batch is
submitted to the store; for a list batch the escaped error is then caught
and logged by the per-list catch and the loop moves to the next source. -/
theorem c4_batch_aborts (env : Env) (docs : DBState) (t : Tweet)
    (ts : List Tweet) (e : JsError)
    (he : env.insertErr (mkTweetData t) = some e) :
    storeBatch env (some docs) (t :: ts) =
      (some docs, some e, [Event.insertCall (mkTweetData t)]) ∧
    (∀ lid, env.listTweets lid 100 = FetchResult.ok (some (t :: ts)) →
      processList env (some docs) lid =
        (some docs,
          [Event.listCall lid 100, Event.insertCall (mkTweetData t),
            Event.logFailure lid e])) := by
  have hst : storeTweet env (some docs) t =
      (Except.error e, [Event.insertCall (mkTweetData t)]) := by
    simp [storeTweet, he]
  have hsb : storeBatch env (some docs) (t :: ts) =
      (some docs, some e, [Event.insertCall (mkTweetData t)]) := by
    simp [storeBatch, hst]
  refine ⟨hsb, ?_⟩
  intro lid hlid
  simp [processList, hlid, hsb]

/-- C4 witness: in the two-item batch of `envC4` whose first write fails,
the batch stops after the first attempted insert. -/
theorem c4_batch_aborts_witness :
    storeBatch envC4 (some []) (tweetA :: [tweetB]) =
      (some [], some (JsError.other "write failed"),
        [Event.insertCall (mkTweetData tweetA)]) :=
  (c4_batch_aborts envC4 [] tweetA [tweetB] (JsError.other "write failed")
    (by decide)).1

/-- C4 counterexample: the first list batch holds two tweets, the write of
the first fails, and the second item of the same batch is never submitted
to the store. -/
theorem c4_counterexample :
    Event.insertCall (mkTweetData tweetA) ∈ runTrace envC4 (some []) ∧
    Event.insertCall (mkTweetData tweetB) ∉ runTrace envC4 (some []) := by
  decide

/-- C5: a source whose fetch fails with a non-rate-limit error gets exactly
one read attempt and zero retries: a failing list source is attempted once,
its failure logged, and the run returns without raising; a failing query
source is attempted once and its error returned immediately, with no
further read call. -/
theorem c5_single_attempt_other_error (env : Env) (db : Option DBState)
    (l : String) (msg : String) (hl : l ∈ listIds) :
    ((queryPhase env db).1 = none →
      env.listTweets l 100 = FetchResult.err (JsError.other msg) →
        countEv (Event.listCall l 100) (runTrace env db) = 1 ∧
        Event.logFailure l (JsError.other msg) ∈ runTrace env db ∧
        runError env db = none) ∧
    (env.search theQuery 100 = FetchResult.err (JsError.other msg) →
      runTrace env db = [Event.searchCall theQuery 100] ∧
      runError env db = some (JsError.other msg)) := by
  constructor
  · intro hq he
    have hrun := run_queryPhase_ok env db hq
    refine ⟨?_, ?_, ?_⟩
    · simp only [runTrace, hrun, countEv_append, queryPhase_countEv_listCall,
        processLists_countEv]
      simp [countStr_listIds l hl]
    · simp only [runTrace, hrun]
      exact List.mem_append.mpr
        (Or.inr (logFailure_mem_processLists env l _ he listIds _ hl))
    · simp [runError, hrun]
  · intro hs
    have hq : queryPhase env db =
        (some (JsError.other msg), db, [Event.searchCall theQuery 100]) := by
      simp [queryPhase, hs]
    have hrun := run_queryPhase_err env db (JsError.other msg) (by rw [hq])
    constructor
    · rw [runTrace, hrun, hq]
    · rw [runError, hrun]

/-- C5 witness: with every list call failing with a non-rate-limit error,
the third configured list gets exactly one attempt, its failure is logged,
and the run does not raise. -/
theorem c5_single_attempt_other_error_witness :
    countEv (Event.listCall "1777037601578287430" 100)
        (runTrace envListsFail (some [])) = 1 ∧
    Event.logFailure "1777037601578287430" (JsError.other "badness") ∈
      runTrace envListsFail (some []) ∧
    runError envListsFail (some []) = none :=
  (c5_single_attempt_other_error envListsFail (some []) "1777037601578287430"
    "badness" (by decide)).1 rfl rfl

/-- C6: a successful read that returns zero items classifies as the Empty
outcome, and processing that source performs no persistence call and leaves
the collection unchanged, for a list source and for the query source alike
(both for a present-but-empty data array and for an absent data field). -/
theorem c6_empty_no_persist (env : Env) (db : Option DBState) (l : String) :
    fetchOutcomeOfResult (FetchResult.ok (some [])) = FetchOutcome.empty ∧
    fetchOutcomeOfResult (FetchResult.ok none) = FetchOutcome.empty ∧
    ((env.listTweets l 100 = FetchResult.ok (some []) ∨
        env.listTweets l 100 = FetchResult.ok none) →
      processList env db l = (db, [Event.listCall l 100])) ∧
    ((env.search theQuery 100 = FetchResult.ok (some []) ∨
        env.search theQuery 100 = FetchResult.ok none) →
      queryPhase env db = (none, db, [Event.searchCall theQuery 100])) := by
  refine ⟨rfl, rfl, ?_, ?_⟩
  · rintro (h | h) <;> simp [processList, h, storeBatch]
  · rintro (h | h) <;> simp [queryPhase, h, storeBatch]

/-- C6 witness: with a present but empty data array, a list source produces
only its read call and no insert, and the collection is unchanged. -/
theorem c6_empty_no_persist_witness :
    processList envEmptyBatches (some []) "1587987762908651520" =
      (some [], [Event.listCall "1587987762908651520" 100]) :=
  ((c6_empty_no_persist envEmptyBatches (some [])
    "1587987762908651520").2.2.1) (Or.inl rfl)

/-- C7: normalization maps an absent like count and an absent repost count
to the integer 0 (the `likes` and `retweets` fields are total naturals,
never null), maps an absent tag set to the empty list, and preserves the
external id, the text, and the creation timestamp. -/
theorem c7_normalization (t : Tweet) :
    (t.public_metrics = none →
      (mkTweetData t).likes = 0 ∧ (mkTweetData t).retweets = 0) ∧
    (∀ pm, t.public_metrics = some pm → pm.like_count = none →
      (mkTweetData t).likes = 0) ∧
    (∀ pm, t.public_metrics = some pm → pm.retweet_count = none →
      (mkTweetData t).retweets = 0) ∧
    (t.entities = none → (mkTweetData t).hashtags = []) ∧
    (∀ es, t.entities = some es → es.hashtags = none →
      (mkTweetData t).hashtags = []) ∧
    (mkTweetData t).tweet_id = t.id ∧
    (mkTweetData t).text = t.text ∧
    (mkTweetData t).timestamp = Date.mk t.created_at := by
  refine ⟨?_, ?_, ?_, ?_, ?_, rfl, rfl, rfl⟩
  · intro h
    simp [mkTweetData, h]
  · intro pm h hc
    simp [mkTweetData, h, hc]
  · intro pm h hc
    simp [mkTweetData, h, hc]
  · intro h
    simp [mkTweetData, h]
  · intro es h hc
    simp [mkTweetData, h, hc]

/-- C7 witness: the bare tweet with all optional fields absent normalizes
to zero metrics, an empty tag list, and a preserved external id. -/
theorem c7_normalization_witness :
    (mkTweetData tweetBare).likes = 0 ∧
    (mkTweetData tweetBare).retweets = 0 ∧
    (mkTweetData tweetBare).hashtags = [] ∧
    (mkTweetData tweetBare).tweet_id = "tw1" := by
  have h := c7_normalization tweetBare
  exact ⟨(h.1 rfl).1, (h.1 rfl).2, h.2.2.2.1 rfl, h.2.2.2.2.2.1⟩

/-- C8 (amended): the read calls of a run are issued in the Enumerator
order, each with result cap 100: the full sequence (the query search, then
the five configured lists in configured order) is issued exactly when the
query phase completes without throwing; when the query phase throws, the
single query read is the only read call issued. -/
theorem c8_read_call_order (env : Env) (db : Option DBState) :
    List.filter isReadCall (runTrace env db) =
      (if (queryPhase env db).1 = none then
        Event.searchCall theQuery 100 ::
          listIds.map (fun x => Event.listCall x 100)
      else [Event.searchCall theQuery 100]) := by
  cases hq : (queryPhase env db).1 with
  | none =>
    have hrun := run_queryPhase_ok env db hq
    simp [runTrace, hrun, List.filter_append, queryPhase_readCalls,
      processLists_readCalls, hq]
  | some e =>
    have hrun := run_queryPhase_err env db e hq
    simp [runTrace, hrun, queryPhase_readCalls, hq]

/-- C8 counterexample: in a run whose query fetch fails, the read calls are
the single query search, not the query followed by each configured list. -/
theorem c8_counterexample :
    List.filter isReadCall (runTrace envQueryFails (some [])) =
      [Event.searchCall theQuery 100] ∧
    ¬(List.filter isReadCall (runTrace envQueryFails (some [])) =
      Event.searchCall theQuery 100 ::
        listIds.map (fun x => Event.listCall x 100)) := by
  decide

/-- C9: when the durable-store handle is not initialized, `storeTweet`
rejects with the error `MongoDB not connected` and performs no external
call at all, so the durable state is untouched. -/
theorem c9_store_requires_connection (env : Env) (t : Tweet) :
    storeTweet env none t =
      (Except.error (JsError.other "MongoDB not connected"), []) := rfl

/-- C10: `connectDB` is idempotent: over any number of sequential calls
starting from the fresh module state, at most one connection is
established (exactly one as soon as there is a call), and every call
returns the identical database handle. -/
theorem c10_connectDB_idempotent (n : Nat) :
    (connectDBIter n connState0).1 = List.replicate n donkeeBotHandle ∧
    (connectDBIter n connState0).2.client.connectCount =
      (if n = 0 then 0 else 1) := by
  cases n with
  | zero => exact ⟨rfl, rfl⟩
  | succ m =>
    have h1 : connectDB connState0 =
        (donkeeBotHandle, ⟨some donkeeBotHandle, ⟨1⟩⟩) := rfl
    constructor
    · simp [connectDBIter, h1, connectDBIter_connected, List.replicate_succ]
    · simp [connectDBIter, h1, connectDBIter_connected]

end DonkeeBot
